import Mathlib

/-!
Shallow embedding of the crash-recovery subsystem of the CHERIoT network
stack: the reset orchestrator `reset_network_stack_state` and the fault
handler `compartment_error_handler` (source file: the TCP/IP error handler
translation unit).  Stateful code is modelled as explicit state passing on a
record of the compartment's shared globals, together with an event trace
recording the externally visible operations the code performs, in program
order.  Machine integers are Nat with explicit reductions modulo 2^8 / 2^32
where the source uses uint8_t / uint32_t arithmetic that can wrap.
-/

namespace NetStack

/-- Restart state machine constant: no reset in flight (value 0). -/
def NotRestarting : Nat := 0

/-- Restart state machine flag: a reset is in flight (bit 0). -/
def Restarting : Nat := 1

/-- Restart state machine flag: the IP thread has been kicked (bit 1). -/
def IpThreadKicked : Nat := 2

/-- The RISC-V mcause value for CHERI capability faults (0x1c on CHERIoT,
from the platform header priv/riscv.h, which is outside the repository; only
its identity as a distinguished cause value matters here). -/
def MCAUSE_CHERI : Nat := 28

/-- A CHERI capability, abstracted to the fields the error handler inspects
or rewrites: the tag (validity), the address, and the bounds (base and top).
Modelled from the spec: the concrete capability encoding lives in the CHERI
hardware and in cheri.hh, which are outside the repository sources; the spec
describes capabilities through exactly these observable fields. -/
structure Cap where
  valid : Bool
  address : Nat
  base : Nat
  top : Nat
  deriving DecidableEq, Repr

/-- The captured trap frame (ErrorState in the source).  The handler reads
the CSP and CRA register slots and the pcc, and may rewrite pcc and the CSP
slot; all remaining register slots are kept opaque in otherRegisters. -/
structure ErrorState where
  pcc : Cap
  csp : Cap
  cra : Cap
  otherRegisters : List Cap
  deriving DecidableEq, Repr

/-- CHERI exception cause codes, abstracted to the ones the handler branches
on (None, TagViolation) plus an opaque remainder. -/
inductive CauseCode where
  | None
  | TagViolation
  | Other (code : Nat)
  deriving DecidableEq, Repr

/-- CHERI register numbers, abstracted to the ones the handler branches on
(CZR, CRA, CSP) plus an opaque remainder. -/
inductive RegisterNumber where
  | CZR
  | CRA
  | CSP
  | Other (n : Nat)
  deriving DecidableEq, Repr

/-- A flag lock, abstracted to the fields the reset path manipulates: the
owner thread (None when free) and whether the lock has been upgraded for
destruction. -/
structure FlagLock where
  ownerThreadId : Option Nat
  destructionPending : Bool
  deriving DecidableEq, Repr

/-- The zeroed (pristine) lock state produced by the Phase-3
reinitialisation (lockWord = 0 / memset to zero in the source). -/
def FlagLock.zeroed : FlagLock :=
  { ownerThreadId := Option.none, destructionPending := false }

/-- A node of the sealed-sockets registry.  lockValid and socketValid are
the capability tags of the node's socketLock pointer and socket pointer;
eventGroupValid is the tag of socket->xEventGroup (only inspected after the
socket capability was found valid, mirroring the short-circuit in the
source).  eventGroupDestroyed records the force-destruction effect. -/
structure SealedSocket where
  lockValid : Bool
  socketLock : FlagLock
  socketValid : Bool
  eventGroupValid : Bool
  eventGroupDestroyed : Bool
  deriving DecidableEq, Repr

/-- The shared global state of the TCP/IP compartment that
reset_network_stack_state reads and writes.  heapFreeCount counts calls to
free_compartment_memory (an idempotent external reclaim);
networkEventQueueDestroyed records the effect of queue_destroy. -/
structure NetState where
  restartState : Nat
  currentSocketEpoch : Nat
  userThreadCount : Nat
  sealedSocketsListLock : FlagLock
  sealedSockets : List SealedSocket
  criticalSectionLock : FlagLock
  criticalSectionDepth : Nat
  suspendLock : FlagLock
  suspendDepth : Nat
  networkEventQueueDestroyed : Bool
  heapFreeCount : Nat
  deriving DecidableEq, Repr

/-- Per-invocation parameters of the reset / handler: the calling thread,
the designated network thread, the environment's behaviour at the two
external interaction points (how many times the drain loop observed a
nonzero user-thread count before observing zero, and the status returned by
queue_destroy), and the address of the ip_thread_entry routine used when the
handler reinstalls the network thread's context. -/
structure ResetConfig where
  callerThreadId : Nat
  networkThreadID : Nat
  nonzeroPolls : Nat
  queueDestroyError : Nat
  ipThreadEntry : Cap
  deriving DecidableEq, Repr

/-- Trace events: the externally visible operations performed by
reset_network_stack_state, in program order. -/
inductive Ev where
  | logUserThreadHandler
  | logNetworkThreadHandler
  | forceUnlockListLock
  | gateWin
  | gateLose (prior : Nat)
  | logRestartCrash
  | acquireListLock
  | upgradeListLockForDestruction
  | visitNode (i : Nat)
  | destroySocketLock (i : Nat)
  | skipCorruptedLock (i : Nat)
  | destroyEventGroup (i : Nat)
  | skipCorruptedSocket (i : Nat)
  | registryReset
  | upgradeCriticalSectionLock
  | upgradeSuspendLock
  | queueDestroy (err : Nat)
  | freeMemory
  | sleep
  | observeDrained
  | waitForIpThread
  | epochIncrement
  | reinitLocks
  | setIpThreadKicked (newValue : Nat)
  | networkRestart
  deriving DecidableEq, Repr

/-- Phase-1 bookkeeping, first half: a user-thread caller decrements
userThreadCount (uint8_t, so modulo 2^8). -/
def decrementIfUser (cfg : ResetConfig) (s : NetState) : NetState :=
  if cfg.callerThreadId ≠ cfg.networkThreadID then
    { s with userThreadCount := (s.userThreadCount + 255) % 256 }
  else s

/-- Phase-1 bookkeeping, second half: the sealed-sockets list lock is
forcibly unlocked when the crashing caller itself holds it. -/
def forceUnlockIfOwned (cfg : ResetConfig) (s : NetState) : NetState :=
  if s.sealedSocketsListLock.ownerThreadId = some cfg.callerThreadId then
    { s with sealedSocketsListLock :=
        { s.sealedSocketsListLock with ownerThreadId := Option.none } }
  else s

/-- Phase-1 state effect, in source order. -/
def phase1State (cfg : ResetConfig) (s : NetState) : NetState :=
  forceUnlockIfOwned cfg (decrementIfUser cfg s)

/-- Phase-1 trace: the role log line, plus the forced unlock when the caller
held the registry lock. -/
def phase1Events (cfg : ResetConfig) (s : NetState) : List Ev :=
  (if cfg.callerThreadId ≠ cfg.networkThreadID then [Ev.logUserThreadHandler]
   else [Ev.logNetworkThreadHandler]) ++
  (if s.sealedSocketsListLock.ownerThreadId = some cfg.callerThreadId then
     [Ev.forceUnlockListLock]
   else [])

/-- Trace of a losing gate attempt: the failed compare-exchange together
with its observed prior value, plus the likely-unrecoverable log line when
the IP thread re-faults during a reset that already kicked it. -/
def gateLoseEvents (cfg : ResetConfig) (prior : Nat) : List Ev :=
  Ev.gateLose prior ::
    (if cfg.callerThreadId = cfg.networkThreadID ∧ prior &&& IpThreadKicked ≠ 0 then
       [Ev.logRestartCrash]
     else [])

/-- Events emitted while processing one registry node: the node visit, then
either the socket-lock destruction upgrade or the corrupted-lock skip+log,
then either the event-group force-destruction or the corrupted-socket
skip+log.  The two checks mirror the source exactly: the lock branch tests
the lock capability tag, the event-group branch tests the socket capability
tag and then the event-group capability tag. -/
def nodeEvents (i : Nat) (node : SealedSocket) : List Ev :=
  Ev.visitNode i ::
    ((if node.lockValid then [Ev.destroySocketLock i] else [Ev.skipCorruptedLock i]) ++
     (if node.socketValid && node.eventGroupValid then [Ev.destroyEventGroup i]
      else [Ev.skipCorruptedSocket i]))

/-- Events of the full registry walk, numbering nodes from i upward. -/
def walkRegistryEvents : Nat → List SealedSocket → List Ev
  | _, [] => []
  | i, node :: rest => nodeEvents i node ++ walkRegistryEvents (i + 1) rest

/-- State effect of the registry walk on the nodes: valid locks are upgraded
for destruction; event groups of nodes with valid socket and event-group
capabilities are force-destroyed; corrupted capabilities are left
untouched. -/
def walkRegistryNodes (l : List SealedSocket) : List SealedSocket :=
  l.map (fun node =>
    let node1 := if node.lockValid then
        { node with socketLock := { node.socketLock with destructionPending := true } }
      else node
    if node.socketValid && node.eventGroupValid then
      { node1 with eventGroupDestroyed := true }
    else node1)

/-- Phase-2 and Phase-3 state effect of a winning reset, applied to the
state as it stands just after the successful gate transition (restartState
already set to Restarting).  Mirrors the source order: acquire and upgrade
the registry lock; walk the registry; empty the registry; upgrade the two
critical-section locks; destroy the event queue; drain user threads (one
heap reclaim per nonzero poll, terminating on the observation of zero);
reclaim the heap once more; advance the epoch modulo 2^32; reinitialise the
locks to their zeroed state; set IpThreadKicked; call network_restart. -/
def phase23State (cfg : ResetConfig) (s : NetState) : NetState :=
  let s3 := { s with sealedSocketsListLock :=
      { s.sealedSocketsListLock with ownerThreadId := some cfg.callerThreadId } }
  let s4 := { s3 with sealedSocketsListLock :=
      { s3.sealedSocketsListLock with destructionPending := true } }
  let s5 := { s4 with sealedSockets := walkRegistryNodes s4.sealedSockets }
  let s6 := { s5 with sealedSockets := [] }
  let s7 := { s6 with criticalSectionLock :=
      { s6.criticalSectionLock with destructionPending := true } }
  let s8 := { s7 with suspendLock :=
      { s7.suspendLock with destructionPending := true } }
  let s9 := if cfg.queueDestroyError = 0 then
      { s8 with networkEventQueueDestroyed := true }
    else s8
  let s10 := { s9 with heapFreeCount := s9.heapFreeCount + cfg.nonzeroPolls,
                       userThreadCount := 0 }
  let s11 := { s10 with heapFreeCount := s10.heapFreeCount + 1 }
  let s12 := { s11 with currentSocketEpoch :=
      (s11.currentSocketEpoch + 1) % 4294967296 }
  let s13 := { s12 with criticalSectionLock := FlagLock.zeroed,
                        criticalSectionDepth := 0,
                        suspendLock := FlagLock.zeroed,
                        suspendDepth := 0,
                        sealedSocketsListLock := FlagLock.zeroed }
  { s13 with restartState := s13.restartState ||| IpThreadKicked }

/-- Phase-2 trace of a winning reset (the registry it walks is the one in
the post-Phase-1 state). -/
def phase2Events (cfg : ResetConfig) (sockets : List SealedSocket) : List Ev :=
  [Ev.acquireListLock, Ev.upgradeListLockForDestruction] ++
  walkRegistryEvents 0 sockets ++
  [Ev.registryReset, Ev.upgradeCriticalSectionLock, Ev.upgradeSuspendLock,
   Ev.queueDestroy cfg.queueDestroyError] ++
  (List.replicate cfg.nonzeroPolls [Ev.freeMemory, Ev.sleep]).flatten ++
  [Ev.observeDrained] ++
  (if cfg.callerThreadId ≠ cfg.networkThreadID then [Ev.waitForIpThread] else [])

/-- Phase-3 trace of a winning reset.  The restartState value written by the
IpThreadKicked-setting atomic or is 1 ||| 2 because restartState holds
Restarting at that point. -/
def phase3Events : List Ev :=
  [Ev.freeMemory, Ev.epochIncrement, Ev.reinitLocks,
   Ev.setIpThreadKicked (Restarting ||| IpThreadKicked), Ev.networkRestart]

/-- The reset orchestrator (reset_network_stack_state in the source), as a
function from the shared state to the final shared state plus the trace of
operations performed by this invocation.  The Phase-2 drain loop of the
source terminates exactly when a load of userThreadCount returns zero; the
model covers every completed execution by taking the number of nonzero
observations as the environment parameter cfg.nonzeroPolls (concurrent user
threads decrement the counter to zero while the winner polls). -/
def reset_network_stack_state (cfg : ResetConfig) (s : NetState) :
    NetState × List Ev :=
  let s1 := phase1State cfg s
  if s1.restartState = NotRestarting then
    let s2 := { s1 with restartState := Restarting }
    (phase23State cfg s2,
     phase1Events cfg s ++ [Ev.gateWin] ++
       phase2Events cfg s2.sealedSockets ++ phase3Events)
  else
    (s1, phase1Events cfg s ++ gateLoseEvents cfg s1.restartState)

/-- Serialized operations on the atomic restartState word during one reset
round: a caller's compare-exchange attempt (NotRestarting to Restarting),
and the winner's later atomic or of IpThreadKicked.  Atomicity of the C++
std::atomic operations means every interleaving of concurrent callers is
one such serial list. -/
inductive GateOp where
  | attempt
  | kick
  deriving DecidableEq, Repr

/-- The prior values observed by the successive compare-exchange attempts in
a serialized list of restartState operations, starting from the given
state. -/
def gatePriors : Nat → List GateOp → List Nat
  | _, [] => []
  | st, GateOp.attempt :: rest =>
      st :: gatePriors (if st = NotRestarting then Restarting else st) rest
  | st, GateOp.kick :: rest => gatePriors (st ||| IpThreadKicked) rest

/-- Classifies an event as belonging to Phases 2-3 (true) or Phase 1 /
the gate itself (false). -/
def Ev.phase23 : Ev → Bool
  | .logUserThreadHandler => false
  | .logNetworkThreadHandler => false
  | .forceUnlockListLock => false
  | .gateWin => false
  | .gateLose _ => false
  | .logRestartCrash => false
  | _ => true

/-- The restartState value written by an event, if the event writes
restartState (the winning compare-exchange writes Restarting; the Phase-3
atomic or writes its recorded new value). -/
def Ev.restartWrite : Ev → Option Nat
  | .gateWin => some Restarting
  | .setIpThreadKicked v => some v
  | _ => Option.none

/-- The successive values written to restartState by the events of a
trace. -/
def restartWrites (l : List Ev) : List Nat := l.filterMap Ev.restartWrite

/-- The registry-walk node index carried by a walk event, if any. -/
def Ev.walkIndex : Ev → Option Nat
  | .visitNode i => some i
  | .destroySocketLock i => some i
  | .skipCorruptedLock i => some i
  | .destroyEventGroup i => some i
  | .skipCorruptedSocket i => some i
  | _ => Option.none

/-- Event a occurs strictly before the first occurrence of event b in the
trace. -/
def occursBefore (a b : Ev) (tr : List Ev) : Prop :=
  ∃ l₁ l₂, tr = l₁ ++ b :: l₂ ∧ a ∈ l₁ ∧ b ∉ l₁

/-- Fault classification outcomes, one per branch of the handler. -/
inductive Classification where
  | ThreadExit
  | BenignUnwind
  | Corruption
  | NonCheri
  deriving DecidableEq, Repr

/-- The handler's return value (ErrorRecoveryBehaviour in the source). -/
inductive ErrorRecoveryBehaviour where
  | InstallContext
  | ForceUnwind
  deriving DecidableEq, Repr

/-- Log events emitted by the handler itself. -/
inductive HEv where
  | logThreadExit
  | logCorruption (tid : Nat)
  | logRewindUser (tid : Nat)
  | logUnhandled (mcause : Nat) (tid : Nat) (pcc : Cap)
  | logStackLength (len : Nat)
  | logResetStack (oldAddr : Nat) (newAddr : Nat)
  | logReinstall
  deriving DecidableEq, Repr

/-- The complete observable outcome of one handler invocation: returned
behaviour, the (possibly rewritten) frame, the resulting shared state, which
classification branch ran, the trace of the reset if one was invoked, and
the handler's own log events. -/
structure HandlerResult where
  behaviour : ErrorRecoveryBehaviour
  frame : ErrorState
  state : NetState
  classification : Classification
  resetTrace : List Ev
  events : List HEv
  deriving DecidableEq, Repr

/-- The fault handler (compartment_error_handler in the source).  mtval is
decoded by the external extract_cheri_mtval into the exception cause code
and the faulting register number, which are taken directly as arguments.
Modelled from the spec: the frame register accessors and the capability
address rewrite live in cheri.hh (outside the repository); per the spec's
ErrorFrame contract, the network-thread reinstall path rewrites the frame's
stack-pointer slot to the base of its capability and the frame's pcc to the
ip_thread_entry routine, and no other path writes the frame. -/
def compartment_error_handler (cfg : ResetConfig) (s : NetState)
    (frame : ErrorState) (mcause : Nat) (exceptionCode : CauseCode)
    (registerNumber : RegisterNumber) : HandlerResult :=
  let threadID := cfg.callerThreadId
  if mcause = MCAUSE_CHERI then
    let stackCapability := frame.csp
    let returnCapability := frame.cra
    if registerNumber = RegisterNumber.CRA ∧ returnCapability.address = 0 ∧
       exceptionCode = CauseCode.TagViolation ∧
       stackCapability.top = stackCapability.address then
      { behaviour := ErrorRecoveryBehaviour.ForceUnwind, frame := frame,
        state := s, classification := Classification.ThreadExit,
        resetTrace := [], events := [HEv.logThreadExit] }
    else if exceptionCode = CauseCode.None then
      { behaviour := ErrorRecoveryBehaviour.InstallContext, frame := frame,
        state := s, classification := Classification.BenignUnwind,
        resetTrace := [], events := [] }
    else
      let r := reset_network_stack_state cfg s
      if threadID = cfg.networkThreadID then
        let stack := frame.csp
        let newStack := { stack with address := stack.base }
        { behaviour := ErrorRecoveryBehaviour.InstallContext,
          frame := { frame with csp := newStack, pcc := cfg.ipThreadEntry },
          state := r.1, classification := Classification.Corruption,
          resetTrace := r.2,
          events := [HEv.logCorruption threadID,
                     HEv.logResetStack stack.address stack.base,
                     HEv.logReinstall] }
      else
        { behaviour := ErrorRecoveryBehaviour.ForceUnwind, frame := frame,
          state := r.1, classification := Classification.Corruption,
          resetTrace := r.2,
          events := [HEv.logCorruption threadID,
                     HEv.logRewindUser threadID] }
  else
    { behaviour := ErrorRecoveryBehaviour.ForceUnwind, frame := frame,
      state := s, classification := Classification.NonCheri,
      resetTrace := [],
      events := [HEv.logUnhandled mcause threadID frame.pcc,
                 HEv.logStackLength (frame.csp.top - frame.csp.base)] }

/-! Helper lemmas about the segments of the reset trace and state. -/

theorem phase1State_restartState (cfg : ResetConfig) (s : NetState) :
    (phase1State cfg s).restartState = s.restartState := by
  unfold phase1State forceUnlockIfOwned decrementIfUser
  split <;> split <;> rfl

theorem phase1State_sealedSockets (cfg : ResetConfig) (s : NetState) :
    (phase1State cfg s).sealedSockets = s.sealedSockets := by
  unfold phase1State forceUnlockIfOwned decrementIfUser
  split <;> split <;> rfl

theorem reset_win_eq (cfg : ResetConfig) (s : NetState)
    (h : s.restartState = NotRestarting) :
    reset_network_stack_state cfg s =
      (phase23State cfg { phase1State cfg s with restartState := Restarting },
       phase1Events cfg s ++ [Ev.gateWin] ++
         phase2Events cfg s.sealedSockets ++ phase3Events) := by
  simp only [reset_network_stack_state]
  rw [if_pos (by rw [phase1State_restartState, h])]
  have hs : ({ phase1State cfg s with
      restartState := Restarting } : NetState).sealedSockets = s.sealedSockets := by
    simpa using phase1State_sealedSockets cfg s
  rw [hs]

theorem reset_lose_eq (cfg : ResetConfig) (s : NetState)
    (h : s.restartState ≠ NotRestarting) :
    reset_network_stack_state cfg s =
      (phase1State cfg s, phase1Events cfg s ++ gateLoseEvents cfg s.restartState) := by
  simp only [reset_network_stack_state]
  rw [if_neg (by rw [phase1State_restartState]; exact h)]
  rw [phase1State_restartState]

theorem mem_phase1Events {x : Ev} {cfg : ResetConfig} {s : NetState}
    (h : x ∈ phase1Events cfg s) :
    x = Ev.logUserThreadHandler ∨ x = Ev.logNetworkThreadHandler ∨
      x = Ev.forceUnlockListLock := by
  unfold phase1Events at h
  rcases List.mem_append.mp h with h1 | h1
  · split at h1 <;> simp at h1 <;> simp [h1]
  · split at h1 <;> simp at h1
    simp [h1]

theorem mem_gateLoseEvents {x : Ev} {cfg : ResetConfig} {p : Nat}
    (h : x ∈ gateLoseEvents cfg p) :
    x = Ev.gateLose p ∨ x = Ev.logRestartCrash := by
  unfold gateLoseEvents at h
  rcases List.mem_cons.mp h with h1 | h1
  · exact Or.inl h1
  · split at h1 <;> simp at h1
    simp [h1]

theorem mem_drainEvents {x : Ev} {n : Nat}
    (h : x ∈ (List.replicate n [Ev.freeMemory, Ev.sleep]).flatten) :
    x = Ev.freeMemory ∨ x = Ev.sleep := by
  rcases List.mem_flatten.mp h with ⟨l, hl, hx⟩
  rcases List.mem_replicate.mp hl with ⟨-, rfl⟩
  simpa using hx

theorem walkIndex_of_mem_nodeEvents {x : Ev} {i : Nat} {node : SealedSocket}
    (h : x ∈ nodeEvents i node) : x.walkIndex = some i := by
  unfold nodeEvents at h
  rcases List.mem_cons.mp h with h1 | h1
  · simp [h1, Ev.walkIndex]
  · rcases List.mem_append.mp h1 with h2 | h2 <;>
      split at h2 <;> simp at h2 <;> simp [h2, Ev.walkIndex]

theorem mem_walkRegistryEvents_iff {x : Ev} :
    ∀ (l : List SealedSocket) (i : Nat),
      x ∈ walkRegistryEvents i l ↔
        ∃ j node, l[j]? = some node ∧ x ∈ nodeEvents (i + j) node := by
  intro l
  induction l with
  | nil => intro i; simp [walkRegistryEvents]
  | cons node rest ih =>
    intro i
    unfold walkRegistryEvents
    rw [List.mem_append]
    constructor
    · intro h
      rcases h with h | h
      · exact ⟨0, node, by simp, by simpa using h⟩
      · rcases (ih (i + 1)).mp h with ⟨j, node2, hget, hmem⟩
        refine ⟨j + 1, node2, by simpa using hget, ?_⟩
        have : i + 1 + j = i + (j + 1) := by omega
        rwa [this] at hmem
    · rintro ⟨j, node2, hget, hmem⟩
      cases j with
      | zero =>
        simp at hget
        subst hget
        exact Or.inl (by simpa using hmem)
      | succ j =>
        refine Or.inr ((ih (i + 1)).mpr ⟨j, node2, by simpa using hget, ?_⟩)
        have : i + (j + 1) = i + 1 + j := by omega
        rwa [this] at hmem

theorem walkIndex_bound_of_mem {x : Ev} {l : List SealedSocket} {i : Nat}
    (h : x ∈ walkRegistryEvents i l) :
    ∃ k, x.walkIndex = some k ∧ i ≤ k ∧ k < i + l.length := by
  rcases (mem_walkRegistryEvents_iff l i).mp h with ⟨j, node, hget, hmem⟩
  have hj : j < l.length := by
    by_contra hge
    rw [List.getElem?_eq_none (by omega)] at hget
    cases hget
  exact ⟨i + j, walkIndex_of_mem_nodeEvents hmem, by omega, by omega⟩

theorem visitNode_mem_nodeEvents {j i : Nat} {node : SealedSocket} :
    Ev.visitNode j ∈ nodeEvents i node ↔ j = i := by
  unfold nodeEvents
  constructor
  · intro h
    rcases List.mem_cons.mp h with h1 | h1
    · cases h1; rfl
    · have := walkIndex_of_mem_nodeEvents (List.mem_cons_of_mem _ h1)
      simp [Ev.walkIndex] at this
      exact this
  · rintro rfl
    exact List.mem_cons_self _ _

theorem destroySocketLock_mem_nodeEvents {j i : Nat} {node : SealedSocket} :
    Ev.destroySocketLock j ∈ nodeEvents i node ↔ j = i ∧ node.lockValid = true := by
  unfold nodeEvents
  rw [List.mem_cons, List.mem_append]
  constructor
  · intro h
    rcases h with h1 | h1 | h1
    · cases h1
    · split at h1 <;> simp_all
    · split at h1 <;> simp_all
  · rintro ⟨rfl, hv⟩
    simp [hv]

theorem skipCorruptedLock_mem_nodeEvents {j i : Nat} {node : SealedSocket} :
    Ev.skipCorruptedLock j ∈ nodeEvents i node ↔ j = i ∧ node.lockValid = false := by
  unfold nodeEvents
  rw [List.mem_cons, List.mem_append]
  constructor
  · intro h
    rcases h with h1 | h1 | h1
    · cases h1
    · split at h1 <;> simp_all
    · split at h1 <;> simp_all
  · rintro ⟨rfl, hv⟩
    simp [hv]

theorem destroyEventGroup_mem_nodeEvents {j i : Nat} {node : SealedSocket} :
    Ev.destroyEventGroup j ∈ nodeEvents i node ↔
      j = i ∧ (node.socketValid && node.eventGroupValid) = true := by
  unfold nodeEvents
  rw [List.mem_cons, List.mem_append]
  constructor
  · intro h
    rcases h with h1 | h1 | h1
    · cases h1
    · split at h1 <;> simp_all
    · split at h1 <;> simp_all
  · rintro ⟨rfl, hv⟩
    simp [hv]

theorem skipCorruptedSocket_mem_nodeEvents {j i : Nat} {node : SealedSocket} :
    Ev.skipCorruptedSocket j ∈ nodeEvents i node ↔
      j = i ∧ (node.socketValid && node.eventGroupValid) = false := by
  unfold nodeEvents
  rw [List.mem_cons, List.mem_append]
  constructor
  · intro h
    rcases h with h1 | h1 | h1
    · cases h1
    · split at h1 <;> simp_all
    · split at h1 <;> simp_all
  · rintro ⟨rfl, hv⟩
    simp [hv]

theorem visitNode_mem_walk_iff {j : Nat} {l : List SealedSocket} :
    Ev.visitNode j ∈ walkRegistryEvents 0 l ↔ j < l.length := by
  rw [mem_walkRegistryEvents_iff]
  constructor
  · rintro ⟨j2, node, hget, hmem⟩
    rw [visitNode_mem_nodeEvents] at hmem
    subst hmem
    have hlt : j2 < l.length := by
      by_contra hge
      rw [List.getElem?_eq_none (by omega)] at hget
      cases hget
    omega
  · intro hj
    refine ⟨j, l[j], by simp [hj], ?_⟩
    rw [visitNode_mem_nodeEvents]
    omega

theorem destroySocketLock_mem_walk_iff {j : Nat} {l : List SealedSocket} :
    Ev.destroySocketLock j ∈ walkRegistryEvents 0 l ↔
      ∃ node, l[j]? = some node ∧ node.lockValid = true := by
  rw [mem_walkRegistryEvents_iff]
  constructor
  · rintro ⟨j2, node, hget, hmem⟩
    rw [destroySocketLock_mem_nodeEvents] at hmem
    obtain ⟨hj, hv⟩ := hmem
    exact ⟨node, by rw [show j2 = j by omega] at hget; exact hget, hv⟩
  · rintro ⟨node, hget, hv⟩
    refine ⟨j, node, hget, ?_⟩
    rw [destroySocketLock_mem_nodeEvents]
    exact ⟨by omega, hv⟩

theorem skipCorruptedLock_mem_walk_iff {j : Nat} {l : List SealedSocket} :
    Ev.skipCorruptedLock j ∈ walkRegistryEvents 0 l ↔
      ∃ node, l[j]? = some node ∧ node.lockValid = false := by
  rw [mem_walkRegistryEvents_iff]
  constructor
  · rintro ⟨j2, node, hget, hmem⟩
    rw [skipCorruptedLock_mem_nodeEvents] at hmem
    obtain ⟨hj, hv⟩ := hmem
    exact ⟨node, by rw [show j2 = j by omega] at hget; exact hget, hv⟩
  · rintro ⟨node, hget, hv⟩
    refine ⟨j, node, hget, ?_⟩
    rw [skipCorruptedLock_mem_nodeEvents]
    exact ⟨by omega, hv⟩

theorem destroyEventGroup_mem_walk_iff {j : Nat} {l : List SealedSocket} :
    Ev.destroyEventGroup j ∈ walkRegistryEvents 0 l ↔
      ∃ node, l[j]? = some node ∧ (node.socketValid && node.eventGroupValid) = true := by
  rw [mem_walkRegistryEvents_iff]
  constructor
  · rintro ⟨j2, node, hget, hmem⟩
    rw [destroyEventGroup_mem_nodeEvents] at hmem
    obtain ⟨hj, hv⟩ := hmem
    exact ⟨node, by rw [show j2 = j by omega] at hget; exact hget, hv⟩
  · rintro ⟨node, hget, hv⟩
    refine ⟨j, node, hget, ?_⟩
    rw [destroyEventGroup_mem_nodeEvents]
    exact ⟨by omega, hv⟩

theorem skipCorruptedSocket_mem_walk_iff {j : Nat} {l : List SealedSocket} :
    Ev.skipCorruptedSocket j ∈ walkRegistryEvents 0 l ↔
      ∃ node, l[j]? = some node ∧ (node.socketValid && node.eventGroupValid) = false := by
  rw [mem_walkRegistryEvents_iff]
  constructor
  · rintro ⟨j2, node, hget, hmem⟩
    rw [skipCorruptedSocket_mem_nodeEvents] at hmem
    obtain ⟨hj, hv⟩ := hmem
    exact ⟨node, by rw [show j2 = j by omega] at hget; exact hget, hv⟩
  · rintro ⟨node, hget, hv⟩
    refine ⟨j, node, hget, ?_⟩
    rw [skipCorruptedSocket_mem_nodeEvents]
    exact ⟨by omega, hv⟩

theorem mem_phase2Events {x : Ev} {cfg : ResetConfig} {sockets : List SealedSocket}
    (h : x ∈ phase2Events cfg sockets) :
    x = Ev.acquireListLock ∨ x = Ev.upgradeListLockForDestruction ∨
    x ∈ walkRegistryEvents 0 sockets ∨ x = Ev.registryReset ∨
    x = Ev.upgradeCriticalSectionLock ∨ x = Ev.upgradeSuspendLock ∨
    x = Ev.queueDestroy cfg.queueDestroyError ∨ x = Ev.freeMemory ∨
    x = Ev.sleep ∨ x = Ev.observeDrained ∨ x = Ev.waitForIpThread := by
  unfold phase2Events at h
  rcases List.mem_append.mp h with h1 | h1
  · rcases List.mem_append.mp h1 with h2 | h2
    · rcases List.mem_append.mp h2 with h3 | h3
      · rcases List.mem_append.mp h3 with h4 | h4
        · rcases List.mem_append.mp h4 with h5 | h5
          · simp at h5
            rcases h5 with h6 | h6 <;> simp [h6]
          · exact Or.inr (Or.inr (Or.inl h5))
        · simp at h4
          rcases h4 with h6 | h6 | h6 | h6 <;> simp [h6]
      · rcases mem_drainEvents h3 with h6 | h6 <;> simp [h6]
    · simp at h2
      simp [h2]
  · split at h1 <;> simp at h1
    simp [h1]

/-- Events of Phase 3 only (used to show they cannot appear in earlier
segments of the trace). -/
def Ev.phase3Marker : Ev → Bool
  | .epochIncrement => true
  | .reinitLocks => true
  | .setIpThreadKicked _ => true
  | .networkRestart => true
  | _ => false

theorem phase3Marker_false_of_mem_phase1 {x : Ev} {cfg : ResetConfig} {s : NetState}
    (h : x ∈ phase1Events cfg s) : x.phase3Marker = false := by
  rcases mem_phase1Events h with h1 | h1 | h1 <;> simp [h1, Ev.phase3Marker]

theorem phase3Marker_false_of_mem_phase2 {x : Ev} {cfg : ResetConfig}
    {sockets : List SealedSocket} (h : x ∈ phase2Events cfg sockets) :
    x.phase3Marker = false := by
  rcases mem_phase2Events h with h1|h1|h1|h1|h1|h1|h1|h1|h1|h1|h1
  case inr.inr.inl =>
    rcases walkIndex_bound_of_mem h1 with ⟨k, hk, -, -⟩
    cases x <;> simp [Ev.walkIndex] at hk <;> simp [Ev.phase3Marker]
  all_goals simp [h1, Ev.phase3Marker]

theorem restartWrite_none_of_mem_phase1 {x : Ev} {cfg : ResetConfig} {s : NetState}
    (h : x ∈ phase1Events cfg s) : x.restartWrite = Option.none := by
  rcases mem_phase1Events h with h1 | h1 | h1 <;> simp [h1, Ev.restartWrite]

theorem restartWrite_none_of_mem_phase2 {x : Ev} {cfg : ResetConfig}
    {sockets : List SealedSocket} (h : x ∈ phase2Events cfg sockets) :
    x.restartWrite = Option.none := by
  rcases mem_phase2Events h with h1|h1|h1|h1|h1|h1|h1|h1|h1|h1|h1
  case inr.inr.inl =>
    rcases walkIndex_bound_of_mem h1 with ⟨k, hk, -, -⟩
    cases x <;> simp [Ev.walkIndex] at hk <;> simp [Ev.restartWrite]
  all_goals simp [h1, Ev.restartWrite]

theorem restartWrite_none_of_mem_gateLose {x : Ev} {cfg : ResetConfig} {p : Nat}
    (h : x ∈ gateLoseEvents cfg p) : x.restartWrite = Option.none := by
  rcases mem_gateLoseEvents h with h1 | h1 <;> simp [h1, Ev.restartWrite]

theorem phase23State_restartState (cfg : ResetConfig) (s : NetState) :
    (phase23State cfg s).restartState = s.restartState ||| IpThreadKicked := by
  simp only [phase23State]
  split <;> rfl

theorem phase23State_epoch (cfg : ResetConfig) (s : NetState) :
    (phase23State cfg s).currentSocketEpoch =
      (s.currentSocketEpoch + 1) % 4294967296 := by
  simp only [phase23State]
  split <;> rfl

theorem phase23State_sockets (cfg : ResetConfig) (s : NetState) :
    (phase23State cfg s).sealedSockets = [] := by
  simp only [phase23State]
  split <;> rfl

theorem phase23State_userThreadCount (cfg : ResetConfig) (s : NetState) :
    (phase23State cfg s).userThreadCount = 0 := rfl

theorem phase1State_userThreadCount (cfg : ResetConfig) (s : NetState) :
    (phase1State cfg s).userThreadCount =
      if cfg.callerThreadId ≠ cfg.networkThreadID then
        (s.userThreadCount + 255) % 256
      else s.userThreadCount := by
  unfold phase1State forceUnlockIfOwned decrementIfUser
  split <;> split <;> simp_all

theorem phase1State_listLock (cfg : ResetConfig) (s : NetState) :
    (phase1State cfg s).sealedSocketsListLock =
      { ownerThreadId :=
          if s.sealedSocketsListLock.ownerThreadId = some cfg.callerThreadId then
            Option.none
          else s.sealedSocketsListLock.ownerThreadId,
        destructionPending := s.sealedSocketsListLock.destructionPending } := by
  unfold phase1State forceUnlockIfOwned decrementIfUser
  split <;> split <;> simp_all

theorem phase1State_rest (cfg : ResetConfig) (s : NetState) :
    (phase1State cfg s).currentSocketEpoch = s.currentSocketEpoch ∧
    (phase1State cfg s).criticalSectionLock = s.criticalSectionLock ∧
    (phase1State cfg s).criticalSectionDepth = s.criticalSectionDepth ∧
    (phase1State cfg s).suspendLock = s.suspendLock ∧
    (phase1State cfg s).suspendDepth = s.suspendDepth ∧
    (phase1State cfg s).networkEventQueueDestroyed = s.networkEventQueueDestroyed ∧
    (phase1State cfg s).heapFreeCount = s.heapFreeCount := by
  unfold phase1State forceUnlockIfOwned decrementIfUser
  split <;> split <;> simp

theorem kick_ne_zero (st : Nat) : st ||| IpThreadKicked ≠ 0 := by
  intro h
  have h1 : (st ||| IpThreadKicked).testBit 1 = false := by
    rw [h]
    simp
  rw [Nat.testBit_or] at h1
  have h2 : Nat.testBit 2 1 = true := by decide
  simp [IpThreadKicked, h2] at h1

theorem gatePriors_no_win :
    ∀ (ops : List GateOp) (st : Nat), st ≠ 0 → 0 ∉ gatePriors st ops := by
  intro ops
  induction ops with
  | nil => intro st h hmem; simp [gatePriors] at hmem
  | cons op rest ih =>
    intro st h hmem
    cases op with
    | attempt =>
      simp only [gatePriors] at hmem
      rcases List.mem_cons.mp hmem with h1 | h1
      · exact h h1.symm
      · refine ih _ ?_ h1
        split
        · simp [Restarting]
        · exact h
    | kick =>
      simp only [gatePriors] at hmem
      exact ih _ (kick_ne_zero st) hmem

theorem gate_first_attempt_wins (ops : List GateOp)
    (h : ops.head? = some GateOp.attempt) :
    ∃ rest, gatePriors NotRestarting ops = NotRestarting :: rest ∧
      ∀ p ∈ rest, p ≠ NotRestarting := by
  cases ops with
  | nil => cases h
  | cons op tail =>
    have : op = GateOp.attempt := by simpa using h
    subst this
    refine ⟨gatePriors Restarting tail, by simp [gatePriors, NotRestarting], ?_⟩
    intro p hp hz
    subst hz
    exact gatePriors_no_win tail Restarting (by simp [Restarting])
      (by simpa [NotRestarting] using hp)

theorem not_mem_phase1_of_marker {x : Ev} {cfg : ResetConfig} {s : NetState}
    (hx : x.phase3Marker = true) : x ∉ phase1Events cfg s := by
  intro h
  rw [phase3Marker_false_of_mem_phase1 h] at hx
  cases hx

theorem not_mem_phase2_of_marker {x : Ev} {cfg : ResetConfig}
    {sockets : List SealedSocket} (hx : x.phase3Marker = true) :
    x ∉ phase2Events cfg sockets := by
  intro h
  rw [phase3Marker_false_of_mem_phase2 h] at hx
  cases hx

theorem walkIndex_none_of_mem_phase1 {x : Ev} {cfg : ResetConfig} {s : NetState}
    (h : x ∈ phase1Events cfg s) : x.walkIndex = Option.none := by
  rcases mem_phase1Events h with h1 | h1 | h1 <;> simp [h1, Ev.walkIndex]

theorem walkIndex_none_of_mem_phase3 {x : Ev} (h : x ∈ phase3Events) :
    x.walkIndex = Option.none := by
  simp [phase3Events] at h
  rcases h with h1 | h1 | h1 | h1 | h1 <;> simp [h1, Ev.walkIndex]

theorem mem_walk_of_mem_phase2 {x : Ev} {cfg : ResetConfig}
    {sockets : List SealedSocket} (hx : x.walkIndex ≠ Option.none)
    (h : x ∈ phase2Events cfg sockets) : x ∈ walkRegistryEvents 0 sockets := by
  rcases mem_phase2Events h with h1|h1|h1|h1|h1|h1|h1|h1|h1|h1|h1
  case inr.inr.inl => exact h1
  all_goals exact absurd (by simp [h1, Ev.walkIndex]) hx

/-- In a winning reset trace the registry-walk events are exactly those of
the registry walk. -/
theorem mem_trace_iff_mem_walk {x : Ev} {cfg : ResetConfig} {s : NetState}
    (hx : x.walkIndex ≠ Option.none) (h : s.restartState = NotRestarting) :
    x ∈ (reset_network_stack_state cfg s).2 ↔
      x ∈ walkRegistryEvents 0 s.sealedSockets := by
  rw [reset_win_eq cfg s h]
  constructor
  · intro hmem
    simp only [List.mem_append] at hmem
    rcases hmem with ((h1 | h1) | h1) | h1
    · exact absurd (walkIndex_none_of_mem_phase1 h1) hx
    · simp at h1
      exact absurd (by simp [h1, Ev.walkIndex]) hx
    · exact mem_walk_of_mem_phase2 hx h1
    · exact absurd (walkIndex_none_of_mem_phase3 h1) hx
  · intro hmem
    simp only [List.mem_append]
    refine Or.inl (Or.inr ?_)
    unfold phase2Events
    simp only [List.mem_append]
    exact Or.inl (Or.inl (Or.inl (Or.inl (Or.inr hmem))))

/-! Concrete fixtures used by the witness theorems. -/

/-- A generic valid capability. -/
def capCode : Cap := { valid := true, address := 4096, base := 1024, top := 8192 }

/-- A stack capability whose address sits exactly at its top. -/
def capStackAtTop : Cap := { valid := true, address := 8192, base := 1024, top := 8192 }

/-- A stack capability whose address is strictly inside its bounds. -/
def capStackInside : Cap := { valid := true, address := 5000, base := 1024, top := 8192 }

/-- An untagged null return-address capability. -/
def capNullCra : Cap := { valid := false, address := 0, base := 0, top := 0 }

/-- A frame matching the benign thread-exit signature. -/
def exitFrame : ErrorState :=
  { pcc := capCode, csp := capStackAtTop, cra := capNullCra,
    otherRegisters := [capCode] }

/-- A frame of a corruption-class fault. -/
def faultFrame : ErrorState :=
  { pcc := capCode, csp := capStackInside, cra := capCode,
    otherRegisters := [capCode] }

/-- A registry node with all capabilities intact. -/
def nodeGood : SealedSocket :=
  { lockValid := true, socketLock := FlagLock.zeroed, socketValid := true,
    eventGroupValid := true, eventGroupDestroyed := false }

/-- A registry node whose lock capability is corrupted. -/
def nodeBadLock : SealedSocket :=
  { lockValid := false, socketLock := FlagLock.zeroed, socketValid := true,
    eventGroupValid := true, eventGroupDestroyed := false }

/-- A registry node whose socket capability is corrupted. -/
def nodeBadSocket : SealedSocket :=
  { lockValid := true, socketLock := FlagLock.zeroed, socketValid := false,
    eventGroupValid := true, eventGroupDestroyed := false }

/-- A sample invocation context: a user thread (id 5, network thread id 1)
with one nonzero drain poll and a successful queue destruction. -/
def sampleCfg : ResetConfig :=
  { callerThreadId := 5, networkThreadID := 1, nonzeroPolls := 1,
    queueDestroyError := 0, ipThreadEntry := capCode }

/-- A sample invocation context for the network thread itself. -/
def netCfg : ResetConfig :=
  { callerThreadId := 1, networkThreadID := 1, nonzeroPolls := 0,
    queueDestroyError := 0, ipThreadEntry := capCode }

/-- A sample quiescent state with a three-node registry whose middle node
has a corrupted lock and whose last node has a corrupted socket. -/
def sampleState : NetState :=
  { restartState := NotRestarting, currentSocketEpoch := 7, userThreadCount := 2,
    sealedSocketsListLock := FlagLock.zeroed,
    sealedSockets := [nodeGood, nodeBadLock, nodeBadSocket],
    criticalSectionLock := FlagLock.zeroed, criticalSectionDepth := 0,
    suspendLock := FlagLock.zeroed, suspendDepth := 0,
    networkEventQueueDestroyed := false, heapFreeCount := 0 }

/-- A state in which a reset is already in flight (restartState is
Restarting) and one user thread is inside the compartment. -/
def loserState : NetState :=
  { restartState := Restarting, currentSocketEpoch := 7, userThreadCount := 1,
    sealedSocketsListLock := FlagLock.zeroed, sealedSockets := [nodeGood],
    criticalSectionLock := FlagLock.zeroed, criticalSectionDepth := 0,
    suspendLock := FlagLock.zeroed, suspendDepth := 0,
    networkEventQueueDestroyed := false, heapFreeCount := 0 }

/-- A quiescent state whose epoch sits at the uint32 maximum. -/
def epochEdgeState : NetState :=
  { restartState := NotRestarting, currentSocketEpoch := 4294967295,
    userThreadCount := 0, sealedSocketsListLock := FlagLock.zeroed,
    sealedSockets := [], criticalSectionLock := FlagLock.zeroed,
    criticalSectionDepth := 0, suspendLock := FlagLock.zeroed, suspendDepth := 0,
    networkEventQueueDestroyed := false, heapFreeCount := 0 }

/-! Claim theorems. -/

/-- C5: the handler classifies a trap as benign thread exit if and only if
the cause is the CHERI capability-trap category with a tag violation on the
CRA register, the CRA value is the null address, and the stack pointer sits
exactly at the top of its stack region; in that case it logs the exit and
unwinds without triggering any reset and without touching frame or state. -/
theorem C5_threadExit_iff (cfg : ResetConfig) (s : NetState) (frame : ErrorState)
    (mcause : Nat) (exceptionCode : CauseCode) (registerNumber : RegisterNumber)
    (r : HandlerResult)
    (hr : r = compartment_error_handler cfg s frame mcause exceptionCode
        registerNumber) :
    (r.classification = Classification.ThreadExit ↔
      (mcause = MCAUSE_CHERI ∧ exceptionCode = CauseCode.TagViolation ∧
       registerNumber = RegisterNumber.CRA ∧ frame.cra.address = 0 ∧
       frame.csp.top = frame.csp.address)) ∧
    (r.classification = Classification.ThreadExit →
      r.behaviour = ErrorRecoveryBehaviour.ForceUnwind ∧ r.resetTrace = [] ∧
      r.state = s ∧ r.frame = frame ∧ r.events = [HEv.logThreadExit]) := by
  subst hr
  simp only [compartment_error_handler]
  split
  · split
    · simp_all
    · split
      · simp_all
      · split <;> simp_all
  · simp_all

/-- C5 witness: a concrete thread-exit trap is classified as thread exit,
unwinds, and triggers no reset. -/
theorem C5_witness :
    (compartment_error_handler sampleCfg sampleState exitFrame MCAUSE_CHERI
        CauseCode.TagViolation RegisterNumber.CRA).classification =
      Classification.ThreadExit ∧
    (compartment_error_handler sampleCfg sampleState exitFrame MCAUSE_CHERI
        CauseCode.TagViolation RegisterNumber.CRA).resetTrace = [] := by
  have h := C5_threadExit_iff sampleCfg sampleState exitFrame MCAUSE_CHERI
    CauseCode.TagViolation RegisterNumber.CRA _ rfl
  have hc := h.1.mpr (by refine ⟨rfl, rfl, rfl, ?_, ?_⟩ <;> decide)
  exact ⟨hc, (h.2 hc).2.1⟩

/-- C6: on a corruption-class CHERI fault on the designated network thread,
the handler rewrites exactly the frame's stack-pointer slot (address reset
to the base of the stack region) and program counter (pointed at
ip_thread_entry), returns InstallContext, and leaves every other frame field
unchanged; the reset has run. -/
theorem C6_network_reinstall (cfg : ResetConfig) (s : NetState)
    (frame : ErrorState) (mcause : Nat) (exceptionCode : CauseCode)
    (registerNumber : RegisterNumber) (r : HandlerResult)
    (hr : r = compartment_error_handler cfg s frame mcause exceptionCode
        registerNumber)
    (hclass : r.classification = Classification.Corruption)
    (hnet : cfg.callerThreadId = cfg.networkThreadID) :
    r.behaviour = ErrorRecoveryBehaviour.InstallContext ∧
    r.frame.pcc = cfg.ipThreadEntry ∧
    r.frame.csp.address = frame.csp.base ∧
    r.frame.csp.base = frame.csp.base ∧
    r.frame.csp.top = frame.csp.top ∧
    r.frame.csp.valid = frame.csp.valid ∧
    r.frame.cra = frame.cra ∧
    r.frame.otherRegisters = frame.otherRegisters ∧
    r.state = (reset_network_stack_state cfg s).1 ∧
    r.resetTrace = (reset_network_stack_state cfg s).2 := by
  subst hr
  simp only [compartment_error_handler] at hclass ⊢
  split at hclass
  next hm =>
    split at hclass
    next h4 => simp at hclass
    next h4 =>
      split at hclass
      next hn => simp at hclass
      next hn => simp [hm, h4, hn, hnet]
  next hm => simp at hclass

/-- C6 witness: at a concrete corruption fault on the network thread the
frame is rewritten to the stack base and ip_thread_entry and InstallContext
is returned. -/
theorem C6_witness :
    (compartment_error_handler netCfg sampleState faultFrame MCAUSE_CHERI
        (CauseCode.Other 3) RegisterNumber.CSP).behaviour =
      ErrorRecoveryBehaviour.InstallContext ∧
    (compartment_error_handler netCfg sampleState faultFrame MCAUSE_CHERI
        (CauseCode.Other 3) RegisterNumber.CSP).frame.csp.address =
      faultFrame.csp.base ∧
    (compartment_error_handler netCfg sampleState faultFrame MCAUSE_CHERI
        (CauseCode.Other 3) RegisterNumber.CSP).frame.pcc = netCfg.ipThreadEntry := by
  have h := C6_network_reinstall netCfg sampleState faultFrame MCAUSE_CHERI
    (CauseCode.Other 3) RegisterNumber.CSP _ rfl (by decide) rfl
  exact ⟨h.1, h.2.2.1, h.2.1⟩

/-- C8: a fault whose cause is not the CHERI capability-trap category is
logged (thread id, program counter, stack extent) and force-unwound, with no
reset invoked and no shared state or frame modification. -/
theorem C8_non_cheri (cfg : ResetConfig) (s : NetState) (frame : ErrorState)
    (mcause : Nat) (exceptionCode : CauseCode) (registerNumber : RegisterNumber)
    (r : HandlerResult)
    (hr : r = compartment_error_handler cfg s frame mcause exceptionCode
        registerNumber)
    (hm : mcause ≠ MCAUSE_CHERI) :
    r.behaviour = ErrorRecoveryBehaviour.ForceUnwind ∧
    r.classification = Classification.NonCheri ∧
    r.frame = frame ∧
    r.resetTrace = [] ∧
    r.state = s ∧
    r.events = [HEv.logUnhandled mcause cfg.callerThreadId frame.pcc,
                HEv.logStackLength (frame.csp.top - frame.csp.base)] ∧
    r.state.currentSocketEpoch = s.currentSocketEpoch ∧
    r.state.restartState = s.restartState ∧
    r.state.sealedSockets = s.sealedSockets ∧
    r.state.sealedSocketsListLock = s.sealedSocketsListLock ∧
    r.state.criticalSectionLock = s.criticalSectionLock ∧
    r.state.suspendLock = s.suspendLock ∧
    r.state.userThreadCount = s.userThreadCount := by
  subst hr
  simp only [compartment_error_handler]
  rw [if_neg hm]
  simp

/-- C8 witness: a concrete non-CHERI fault unwinds with state and frame
untouched. -/
theorem C8_witness :
    (compartment_error_handler sampleCfg sampleState faultFrame 2
        (CauseCode.Other 3) RegisterNumber.CSP).behaviour =
      ErrorRecoveryBehaviour.ForceUnwind ∧
    (compartment_error_handler sampleCfg sampleState faultFrame 2
        (CauseCode.Other 3) RegisterNumber.CSP).state = sampleState ∧
    (compartment_error_handler sampleCfg sampleState faultFrame 2
        (CauseCode.Other 3) RegisterNumber.CSP).frame = faultFrame := by
  have h := C8_non_cheri sampleCfg sampleState faultFrame 2
    (CauseCode.Other 3) RegisterNumber.CSP _ rfl (by decide)
  exact ⟨h.1, h.2.2.2.2.1, h.2.2.1⟩

/-- C10: whenever the handler's outcome is not corruption on the network
thread, the captured frame is returned unmodified. -/
theorem C10_frame_unchanged (cfg : ResetConfig) (s : NetState)
    (frame : ErrorState) (mcause : Nat) (exceptionCode : CauseCode)
    (registerNumber : RegisterNumber) (r : HandlerResult)
    (hr : r = compartment_error_handler cfg s frame mcause exceptionCode
        registerNumber)
    (hnot : ¬(r.classification = Classification.Corruption ∧
        cfg.callerThreadId = cfg.networkThreadID)) :
    r.frame = frame := by
  subst hr
  simp only [compartment_error_handler] at hnot ⊢
  split
  · split
    · simp_all
    · split
      · simp_all
      · split
        · simp_all
        · simp_all
  · simp_all

/-- C10 witness: a corruption fault on a user thread leaves the frame
untouched. -/
theorem C10_witness :
    (compartment_error_handler sampleCfg sampleState faultFrame MCAUSE_CHERI
        (CauseCode.Other 3) RegisterNumber.CSP).frame = faultFrame := by
  exact C10_frame_unchanged sampleCfg sampleState faultFrame MCAUSE_CHERI
    (CauseCode.Other 3) RegisterNumber.CSP _ rfl (by decide)

theorem filter_phase23_phase1 (cfg : ResetConfig) (s : NetState) :
    (phase1Events cfg s).filter Ev.phase23 = [] := by
  rw [List.filter_eq_nil_iff]
  intro a ha
  rcases mem_phase1Events ha with h1 | h1 | h1 <;> simp [h1, Ev.phase23]

theorem filter_phase23_gateLose (cfg : ResetConfig) (p : Nat) :
    (gateLoseEvents cfg p).filter Ev.phase23 = [] := by
  rw [List.filter_eq_nil_iff]
  intro a ha
  rcases mem_gateLoseEvents ha with h1 | h1 <;> simp [h1, Ev.phase23]

/-- C1: concurrent calls to the reset entry point serialize at the atomic
restartState compare-exchange, so starting from NotRestarting exactly one
serialized attempt observes the prior value NotRestarting (and performs the
NotRestarting to Restarting transition) while every later attempt observes a
non-zero prior; at the invocation level, the winning call goes on to execute
Phases 2-3 (through the stack restart) while a losing call emits no Phase-2
or Phase-3 operation and returns after Phase 1.  The head hypothesis of the
serialization holds by program order: the only other restartState operation,
the IpThreadKicked or, is executed by a thread only after its own successful
attempt. -/
theorem C1_single_reset_winner :
    (∀ ops : List GateOp, ops.head? = some GateOp.attempt →
      ∃ rest, gatePriors NotRestarting ops = NotRestarting :: rest ∧
        ∀ p ∈ rest, p ≠ NotRestarting) ∧
    (∀ (cfg : ResetConfig) (s : NetState), s.restartState = NotRestarting →
      Ev.gateWin ∈ (reset_network_stack_state cfg s).2 ∧
      Ev.networkRestart ∈ (reset_network_stack_state cfg s).2) ∧
    (∀ (cfg : ResetConfig) (s : NetState), s.restartState ≠ NotRestarting →
      Ev.gateLose s.restartState ∈ (reset_network_stack_state cfg s).2 ∧
      (reset_network_stack_state cfg s).2.filter Ev.phase23 = []) := by
  refine ⟨gate_first_attempt_wins, ?_, ?_⟩
  · intro cfg s h
    rw [reset_win_eq cfg s h]
    constructor
    · simp
    · simp [phase3Events]
  · intro cfg s h
    rw [reset_lose_eq cfg s h]
    constructor
    · simp [gateLoseEvents]
    · rw [List.filter_append, filter_phase23_phase1, filter_phase23_gateLose]
      rfl

/-- C1 witness: in a serialization of two attempts and one kick exactly the
first attempt observes NotRestarting; a concrete winning run reaches the
restart and a concrete losing run emits no Phase-2/3 operation. -/
theorem C1_witness :
    ([GateOp.attempt, GateOp.attempt, GateOp.kick].head? = some GateOp.attempt ∧
      ∃ rest,
        gatePriors NotRestarting [GateOp.attempt, GateOp.attempt, GateOp.kick] =
          NotRestarting :: rest ∧ ∀ p ∈ rest, p ≠ NotRestarting) ∧
    (sampleState.restartState = NotRestarting ∧
      Ev.networkRestart ∈ (reset_network_stack_state sampleCfg sampleState).2) ∧
    (loserState.restartState ≠ NotRestarting ∧
      (reset_network_stack_state sampleCfg loserState).2.filter Ev.phase23 = []) := by
  refine ⟨⟨rfl, C1_single_reset_winner.1 _ rfl⟩,
    ⟨rfl, (C1_single_reset_winner.2.1 sampleCfg sampleState rfl).2⟩,
    ⟨by decide, (C1_single_reset_winner.2.2 sampleCfg loserState (by decide)).2⟩⟩

/-- C4 counterexample: a call losing the gate is not free of shared-state
modification: with restartState already Restarting and a user-thread caller,
userThreadCount is decremented (here from one to zero) during Phase 1. -/
theorem C4_counterexample :
    loserState.restartState ≠ NotRestarting ∧
    (reset_network_stack_state sampleCfg loserState).1.userThreadCount ≠
      loserState.userThreadCount := by
  decide

/-- C4 amended: calling the reset entry point while a reset is already in
progress returns from Phase 1 after performing only Phase-1 bookkeeping
(decrementing userThreadCount when the caller is a user thread, and forcibly
unlocking the sealed-sockets list lock when the caller holds it); it does
not increment the epoch, does not upgrade or destroy any lock, does not
touch the registry or the event queue, and does not change restartState. -/
theorem C4_loser_no_reset_effects (cfg : ResetConfig) (s : NetState)
    (h : s.restartState ≠ NotRestarting) :
    (reset_network_stack_state cfg s).1.restartState = s.restartState ∧
    (reset_network_stack_state cfg s).1.currentSocketEpoch = s.currentSocketEpoch ∧
    (reset_network_stack_state cfg s).1.sealedSockets = s.sealedSockets ∧
    (reset_network_stack_state cfg s).1.criticalSectionLock = s.criticalSectionLock ∧
    (reset_network_stack_state cfg s).1.criticalSectionDepth = s.criticalSectionDepth ∧
    (reset_network_stack_state cfg s).1.suspendLock = s.suspendLock ∧
    (reset_network_stack_state cfg s).1.suspendDepth = s.suspendDepth ∧
    (reset_network_stack_state cfg s).1.networkEventQueueDestroyed =
      s.networkEventQueueDestroyed ∧
    (reset_network_stack_state cfg s).1.heapFreeCount = s.heapFreeCount ∧
    (reset_network_stack_state cfg s).1.sealedSocketsListLock.destructionPending =
      s.sealedSocketsListLock.destructionPending ∧
    (reset_network_stack_state cfg s).1.userThreadCount =
      (if cfg.callerThreadId ≠ cfg.networkThreadID then
        (s.userThreadCount + 255) % 256
       else s.userThreadCount) ∧
    (reset_network_stack_state cfg s).1.sealedSocketsListLock.ownerThreadId =
      (if s.sealedSocketsListLock.ownerThreadId = some cfg.callerThreadId then
        Option.none
       else s.sealedSocketsListLock.ownerThreadId) ∧
    (reset_network_stack_state cfg s).2.filter Ev.phase23 = [] := by
  rw [reset_lose_eq cfg s h]
  have hrest := phase1State_rest cfg s
  have hlock := phase1State_listLock cfg s
  refine ⟨phase1State_restartState cfg s, hrest.1, phase1State_sealedSockets cfg s,
    hrest.2.1, hrest.2.2.1, hrest.2.2.2.1, hrest.2.2.2.2.1, hrest.2.2.2.2.2.1,
    hrest.2.2.2.2.2.2, ?_, phase1State_userThreadCount cfg s, ?_, ?_⟩
  · rw [hlock]
  · rw [hlock]
  · rw [List.filter_append, filter_phase23_phase1, filter_phase23_gateLose]
    rfl

/-- C4 witness: the amended statement at a concrete losing call. -/
theorem C4_witness :
    loserState.restartState ≠ NotRestarting ∧
    (reset_network_stack_state sampleCfg loserState).1.currentSocketEpoch =
      loserState.currentSocketEpoch ∧
    (reset_network_stack_state sampleCfg loserState).1.restartState =
      loserState.restartState ∧
    (reset_network_stack_state sampleCfg loserState).2.filter Ev.phase23 = [] := by
  have hth := C4_loser_no_reset_effects sampleCfg loserState (by decide)
  exact ⟨by decide, hth.2.1, hth.1, hth.2.2.2.2.2.2.2.2.2.2.2.2⟩

/-- C2 counterexample: the epoch is a uint32, so a completed winning reset
starting from the maximal epoch 2^32 - 1 wraps it to 0, a decrease; the
claim that the socket epoch is never decreased is therefore false as
stated. -/
theorem C2_counterexample :
    epochEdgeState.restartState = NotRestarting ∧
    (reset_network_stack_state sampleCfg epochEdgeState).1.currentSocketEpoch <
      epochEdgeState.currentSocketEpoch := by
  constructor
  · rfl
  · decide

/-- C2 amended: in every completed execution that wins the Phase-1 gate the
socket epoch is advanced by exactly one modulo 2^32 (so it never decreases
except when wrapping from 2^32 - 1 to 0), with exactly one increment placed
strictly after the wait loop observed userThreadCount equal to zero and
strictly before network_restart is invoked; executions that lose the gate
leave the epoch unchanged and perform no increment. -/
theorem C2_epoch_advance (cfg : ResetConfig) (s : NetState) :
    (s.restartState = NotRestarting →
      (reset_network_stack_state cfg s).1.currentSocketEpoch =
        (s.currentSocketEpoch + 1) % 4294967296 ∧
      (∃ l₁ l₂, (reset_network_stack_state cfg s).2 = l₁ ++ Ev.epochIncrement :: l₂ ∧
        Ev.epochIncrement ∉ l₁ ∧ Ev.epochIncrement ∉ l₂ ∧
        Ev.observeDrained ∈ l₁ ∧ Ev.networkRestart ∉ l₁ ∧
        Ev.networkRestart ∈ l₂)) ∧
    (s.restartState ≠ NotRestarting →
      (reset_network_stack_state cfg s).1.currentSocketEpoch =
        s.currentSocketEpoch ∧
      Ev.epochIncrement ∉ (reset_network_stack_state cfg s).2) := by
  constructor
  · intro h
    rw [reset_win_eq cfg s h]
    constructor
    · rw [phase23State_epoch]
      simp [(phase1State_rest cfg s).1]
    · refine ⟨phase1Events cfg s ++ [Ev.gateWin] ++
        phase2Events cfg s.sealedSockets ++ [Ev.freeMemory],
        [Ev.reinitLocks, Ev.setIpThreadKicked (Restarting ||| IpThreadKicked),
         Ev.networkRestart], ?_, ?_, ?_, ?_, ?_, ?_⟩
      · simp [phase3Events]
      · intro hmem
        simp only [List.mem_append, List.mem_singleton] at hmem
        rcases hmem with ((h1 | h1) | h1) | h1
        · exact absurd (phase3Marker_false_of_mem_phase1 h1) (by decide)
        · simp at h1
        · exact absurd (phase3Marker_false_of_mem_phase2 h1) (by decide)
        · simp at h1
      · simp
      · simp [phase2Events]
      · intro hmem
        simp only [List.mem_append, List.mem_singleton] at hmem
        rcases hmem with ((h1 | h1) | h1) | h1
        · exact absurd (phase3Marker_false_of_mem_phase1 h1) (by decide)
        · simp at h1
        · exact absurd (phase3Marker_false_of_mem_phase2 h1) (by decide)
        · simp at h1
      · simp
  · intro h
    rw [reset_lose_eq cfg s h]
    refine ⟨(phase1State_rest cfg s).1, ?_⟩
    intro hmem
    rcases List.mem_append.mp hmem with h1 | h1
    · exact absurd (phase3Marker_false_of_mem_phase1 h1) (by decide)
    · rcases mem_gateLoseEvents h1 with h2 | h2 <;> cases h2

/-- C2 witness: a concrete winning reset advances the epoch by one modulo
2^32 and a concrete losing call leaves it unchanged. -/
theorem C2_witness :
    (sampleState.restartState = NotRestarting ∧
      (reset_network_stack_state sampleCfg sampleState).1.currentSocketEpoch =
        (sampleState.currentSocketEpoch + 1) % 4294967296) ∧
    (loserState.restartState ≠ NotRestarting ∧
      (reset_network_stack_state sampleCfg loserState).1.currentSocketEpoch =
        loserState.currentSocketEpoch) := by
  refine ⟨⟨rfl, ((C2_epoch_advance sampleCfg sampleState).1 rfl).1⟩,
    ⟨by decide, ((C2_epoch_advance sampleCfg loserState).2 (by decide)).1⟩⟩

/-- C7: in Phase 3 of every completed winning reset the IpThreadKicked flag
is set on restartState strictly before network_restart is invoked; the only
restartState writes the call performs are the gate write of Restarting and
that flag write, both of which have the Restarting bit set, so the
Restarting bit is never cleared and the final restartState still carries it
on return (a losing call writes restartState not at all). -/
theorem C7_kick_then_restart (cfg : ResetConfig) (s : NetState) :
    (∀ v ∈ restartWrites (reset_network_stack_state cfg s).2,
      v.testBit 0 = true) ∧
    (s.restartState = NotRestarting →
      restartWrites (reset_network_stack_state cfg s).2 =
        [Restarting, Restarting ||| IpThreadKicked] ∧
      (reset_network_stack_state cfg s).1.restartState =
        Restarting ||| IpThreadKicked ∧
      (Restarting ||| IpThreadKicked).testBit 0 = true ∧
      (∃ l₁ l₂, (reset_network_stack_state cfg s).2 =
          l₁ ++ Ev.setIpThreadKicked (Restarting ||| IpThreadKicked) :: l₂ ∧
        Ev.networkRestart ∉ l₁ ∧ Ev.networkRestart ∈ l₂)) ∧
    (s.restartState ≠ NotRestarting →
      restartWrites (reset_network_stack_state cfg s).2 = [] ∧
      (reset_network_stack_state cfg s).1.restartState = s.restartState) := by
  have hwinWrites : s.restartState = NotRestarting →
      restartWrites (reset_network_stack_state cfg s).2 =
        [Restarting, Restarting ||| IpThreadKicked] := by
    intro h
    rw [reset_win_eq cfg s h]
    show restartWrites (phase1Events cfg s ++ [Ev.gateWin] ++
      phase2Events cfg s.sealedSockets ++ phase3Events) = _
    unfold restartWrites
    rw [List.filterMap_append, List.filterMap_append, List.filterMap_append]
    rw [List.filterMap_eq_nil_iff.mpr (fun a ha => restartWrite_none_of_mem_phase1 ha)]
    rw [List.filterMap_eq_nil_iff.mpr (fun a ha => restartWrite_none_of_mem_phase2 ha)]
    simp [phase3Events, Ev.restartWrite]
  have hloseWrites : s.restartState ≠ NotRestarting →
      restartWrites (reset_network_stack_state cfg s).2 = [] := by
    intro h
    rw [reset_lose_eq cfg s h]
    show restartWrites (phase1Events cfg s ++ gateLoseEvents cfg s.restartState) = _
    unfold restartWrites
    rw [List.filterMap_append]
    rw [List.filterMap_eq_nil_iff.mpr (fun a ha => restartWrite_none_of_mem_phase1 ha)]
    rw [List.filterMap_eq_nil_iff.mpr (fun a ha => restartWrite_none_of_mem_gateLose ha)]
    rfl
  refine ⟨?_, ?_, ?_⟩
  · intro v hv
    by_cases h : s.restartState = NotRestarting
    · rw [hwinWrites h] at hv
      rcases List.mem_cons.mp hv with h1 | h1
      · subst h1; decide
      · simp at h1
        subst h1; decide
    · rw [hloseWrites h] at hv
      cases hv
  · intro h
    refine ⟨hwinWrites h, ?_, by decide, ?_⟩
    · rw [reset_win_eq cfg s h]
      rw [phase23State_restartState]
    · rw [reset_win_eq cfg s h]
      refine ⟨phase1Events cfg s ++ [Ev.gateWin] ++
          phase2Events cfg s.sealedSockets ++
          [Ev.freeMemory, Ev.epochIncrement, Ev.reinitLocks],
        [Ev.networkRestart], ?_, ?_, ?_⟩
      · simp [phase3Events]
      · intro hmem
        simp only [List.mem_append] at hmem
        rcases hmem with ((h1 | h1) | h1) | h1
        · exact absurd (phase3Marker_false_of_mem_phase1 h1) (by decide)
        · simp at h1
        · exact absurd (phase3Marker_false_of_mem_phase2 h1) (by decide)
        · simp at h1
      · simp
  · intro h
    refine ⟨hloseWrites h, ?_⟩
    rw [reset_lose_eq cfg s h]
    exact phase1State_restartState cfg s

/-- C7 witness: a concrete winning reset writes restartState twice, sets
the kicked flag before the restart, and returns with restartState equal to
Restarting or-ed with IpThreadKicked. -/
theorem C7_witness :
    sampleState.restartState = NotRestarting ∧
    restartWrites (reset_network_stack_state sampleCfg sampleState).2 =
      [Restarting, Restarting ||| IpThreadKicked] ∧
    (reset_network_stack_state sampleCfg sampleState).1.restartState =
      Restarting ||| IpThreadKicked := by
  have hth := (C7_kick_then_restart sampleCfg sampleState).2.1 rfl
  exact ⟨rfl, hth.1, hth.2.1⟩

/-- C3: during the Phase-2 walk of a winning reset, every registry node is
visited (corrupted nodes do not stop the iteration); a node with an invalid
lock capability is skipped (logged) and its lock is not dereferenced for
destruction; a node with an invalid socket capability is skipped (logged)
and no event group of it is dereferenced for destruction; and the registry
is reset to empty afterwards. -/
theorem C3_defensive_walk (cfg : ResetConfig) (s : NetState)
    (h : s.restartState = NotRestarting) :
    (∀ j, j < s.sealedSockets.length →
      Ev.visitNode j ∈ (reset_network_stack_state cfg s).2) ∧
    (∀ j node, s.sealedSockets[j]? = some node → node.lockValid = false →
      Ev.skipCorruptedLock j ∈ (reset_network_stack_state cfg s).2 ∧
      Ev.destroySocketLock j ∉ (reset_network_stack_state cfg s).2) ∧
    (∀ j node, s.sealedSockets[j]? = some node → node.socketValid = false →
      Ev.skipCorruptedSocket j ∈ (reset_network_stack_state cfg s).2 ∧
      Ev.destroyEventGroup j ∉ (reset_network_stack_state cfg s).2) ∧
    (reset_network_stack_state cfg s).1.sealedSockets = [] := by
  refine ⟨?_, ?_, ?_, ?_⟩
  · intro j hj
    rw [mem_trace_iff_mem_walk (by simp [Ev.walkIndex]) h]
    exact visitNode_mem_walk_iff.mpr hj
  · intro j node hget hv
    constructor
    · rw [mem_trace_iff_mem_walk (by simp [Ev.walkIndex]) h]
      exact skipCorruptedLock_mem_walk_iff.mpr ⟨node, hget, hv⟩
    · rw [mem_trace_iff_mem_walk (by simp [Ev.walkIndex]) h]
      intro hmem
      rcases destroySocketLock_mem_walk_iff.mp hmem with ⟨node2, hget2, hv2⟩
      rw [hget] at hget2
      cases hget2
      rw [hv] at hv2
      cases hv2
  · intro j node hget hv
    constructor
    · rw [mem_trace_iff_mem_walk (by simp [Ev.walkIndex]) h]
      refine skipCorruptedSocket_mem_walk_iff.mpr ⟨node, hget, ?_⟩
      simp [hv]
    · rw [mem_trace_iff_mem_walk (by simp [Ev.walkIndex]) h]
      intro hmem
      rcases destroyEventGroup_mem_walk_iff.mp hmem with ⟨node2, hget2, hv2⟩
      rw [hget] at hget2
      cases hget2
      rw [hv] at hv2
      simp at hv2
  · rw [reset_win_eq cfg s h]
    exact phase23State_sockets cfg _

/-- C3 witness: in a concrete registry whose middle node has a corrupted
lock, the walk still visits the last node, skips the corrupted lock without
destroying it, and empties the registry. -/
theorem C3_witness :
    sampleState.restartState = NotRestarting ∧
    Ev.visitNode 2 ∈ (reset_network_stack_state sampleCfg sampleState).2 ∧
    Ev.skipCorruptedLock 1 ∈ (reset_network_stack_state sampleCfg sampleState).2 ∧
    Ev.destroySocketLock 1 ∉ (reset_network_stack_state sampleCfg sampleState).2 ∧
    (reset_network_stack_state sampleCfg sampleState).1.sealedSockets = [] := by
  have hth := C3_defensive_walk sampleCfg sampleState rfl
  exact ⟨rfl, hth.1 2 (by decide), (hth.2.1 1 nodeBadLock rfl rfl).1,
    (hth.2.1 1 nodeBadLock rfl rfl).2, hth.2.2.2⟩

/-- C9: the lock-capability check and the socket-capability check on a
registry node are independent: a node with an invalid lock but valid socket
and event-group capabilities still has its event group force-destroyed, a
node with an invalid socket but a valid lock still has its lock upgraded for
destruction, and in both cases the walk still follows the node's next
pointer and visits the following node. -/
theorem C9_independent_node_checks (cfg : ResetConfig) (s : NetState)
    (h : s.restartState = NotRestarting) :
    ∀ j node, s.sealedSockets[j]? = some node →
      ((node.lockValid = false → node.socketValid = true →
          node.eventGroupValid = true →
          Ev.destroyEventGroup j ∈ (reset_network_stack_state cfg s).2) ∧
       (node.socketValid = false → node.lockValid = true →
          Ev.destroySocketLock j ∈ (reset_network_stack_state cfg s).2) ∧
       (j + 1 < s.sealedSockets.length →
          Ev.visitNode (j + 1) ∈ (reset_network_stack_state cfg s).2)) := by
  intro j node hget
  refine ⟨?_, ?_, ?_⟩
  · intro hl hs he
    rw [mem_trace_iff_mem_walk (by simp [Ev.walkIndex]) h]
    refine destroyEventGroup_mem_walk_iff.mpr ⟨node, hget, ?_⟩
    simp [hs, he]
  · intro hs hl
    rw [mem_trace_iff_mem_walk (by simp [Ev.walkIndex]) h]
    exact destroySocketLock_mem_walk_iff.mpr ⟨node, hget, hl⟩
  · intro hj
    rw [mem_trace_iff_mem_walk (by simp [Ev.walkIndex]) h]
    exact visitNode_mem_walk_iff.mpr hj

/-- C9 witness: in the concrete registry, the corrupted-lock node still has
its event group destroyed, the corrupted-socket node still has its lock
upgraded, and the node after the corrupted-lock node is still visited. -/
theorem C9_witness :
    sampleState.restartState = NotRestarting ∧
    Ev.destroyEventGroup 1 ∈ (reset_network_stack_state sampleCfg sampleState).2 ∧
    Ev.destroySocketLock 2 ∈ (reset_network_stack_state sampleCfg sampleState).2 ∧
    Ev.visitNode 2 ∈ (reset_network_stack_state sampleCfg sampleState).2 := by
  have hth := C9_independent_node_checks sampleCfg sampleState rfl
  exact ⟨rfl, (hth 1 nodeBadLock rfl).1 rfl rfl rfl,
    (hth 2 nodeBadSocket rfl).2.1 rfl rfl,
    (hth 1 nodeBadLock rfl).2.2 (by decide)⟩

end NetStack
